import Mathlib

/-!
Verification of the LINE-webhook NL-to-SQL service (`src/app.py`).

Strings are modelled as lists of Unicode code points (`Str`), matching
Python `str` semantics for the operations the program uses: `strip`,
`lower`, `startswith`, substring containment, `re` word-boundary
matching and `re.sub` left-to-right non-overlapping substitution.

Modelling notes, applying to the whole file:
* Python's `str.strip()` / regex `\s` strip the ASCII whitespace
  characters; the Unicode-only whitespace code points never appear in
  any string considered here.
* Python's regex `\w` (with `re.IGNORECASE` on `str`) classifies ASCII
  alphanumerics, the underscore and CJK ideographs as word characters;
  `isWordChar` covers exactly the character repertoire appearing in
  this program and in the inputs considered.
* `str.lower` is modelled character-wise on ASCII; none of the strings
  involved contain characters whose Unicode lowercasing differs.
-/

/-- Strings as lists of Unicode characters (Python `str` code points). -/
abbrev Str := List Char

/-- Coerce a Lean string literal into the model's string type. -/
def str (s : String) : Str := s.data

/-- The single-quote character. -/
def sqCh : Char := Char.ofNat 39

/-- The double-quote character. -/
def dqCh : Char := Char.ofNat 34

/-- ASCII lower-casing, as Python's `str.lower` acts on every character used here. -/
def asciiLower (c : Char) : Char :=
  if 'A' ≤ c && c ≤ 'Z' then Char.ofNat (c.toNat + 32) else c

/-- Character-wise lower-casing of a string. -/
def lowers (s : Str) : Str := s.map asciiLower

/-- Whitespace for Python's `str.strip()` and the regex class `\s` (ASCII range). -/
def isPySpace (c : Char) : Bool :=
  c == ' ' || c == '\t' || c == '\n' || c == '\r' || c == Char.ofNat 11 || c == Char.ofNat 12

/-- Drop trailing characters satisfying `p` (the tail end of Python `strip`). -/
def dropTrailingBy (p : Char → Bool) (s : Str) : Str :=
  ((s.reverse).dropWhile p).reverse

/-- Python `str.strip(chars)`: remove characters satisfying `p` from both ends. -/
def stripBy (p : Char → Bool) (s : Str) : Str :=
  dropTrailingBy p (s.dropWhile p)

/-- Python `str.strip()` (whitespace from both ends). -/
def pyStripWs : Str → Str := stripBy isPySpace

/-- Python `str.strip(c)` for a single character `c` (both ends). -/
def stripChar (c : Char) : Str → Str := stripBy (fun x => x == c)

/-- `sql.strip().strip(";")` as in `validate_sql` (`src/app.py:300`).
Note Python `strip(";")` removes semicolons from *both* ends. -/
def pyTrim (s : Str) : Str := stripChar ';' (pyStripWs s)

/-- `s.startswith(pat)` for a literal pattern. -/
def litStarts (pat s : Str) : Bool := decide (s.take pat.length = pat)

/-- Case-insensitive `startswith` against an already-lowercase keyword. -/
def ciStarts (kw : Str) (s : Str) : Bool := decide (lowers (s.take kw.length) = kw)

/-- Python substring containment `a in t`. -/
def containsSub : Str → Str → Bool
  | [], a => decide (a = [])
  | c :: rest, a => litStarts a (c :: rest) || containsSub rest a

/-- `s.lower().startswith("select")` (`src/app.py:301`). -/
def startsWithSelect (s : Str) : Bool := ciStarts (str "select") s

/-- Python regex word character (`\w`) over the repertoire used here:
ASCII alphanumerics, underscore, and CJK ideographs. -/
def isWordChar (c : Char) : Bool :=
  c.isAlphanum || c == '_' || (decide (0x4E00 ≤ c.toNat) && decide (c.toNat ≤ 0x9FFF))

/-- Word boundary `\b` looking backwards: start of string or a non-word character. -/
def noWordBefore : Option Char → Bool
  | none => true
  | some c => !(isWordChar c)

/-- Word boundary `\b` looking forwards: end of string or a non-word character. -/
def noWordAt : Str → Bool
  | [] => true
  | c :: _ => !(isWordChar c)

/-- Match `\bkw\b` (case-insensitive) at the current position, with `prev`
the original character immediately before that position. -/
def wordAt (kw : Str) (prev : Option Char) (s : Str) : Bool :=
  noWordBefore prev && ciStarts kw s && noWordAt (s.drop kw.length)

/-- `re.search` of `\b(kw1|kw2|...)\b` (case-insensitive): scan every position. -/
def scanWords (kws : List Str) : Option Char → Str → Bool
  | _, [] => false
  | prev, c :: rest => kws.any (fun kw => wordAt kw prev (c :: rest)) || scanWords kws (some c) rest

/-- The deny-listed mutating keywords of `BANNED_SQL` (`src/app.py:27`). -/
def BANNED_SQL : List Str :=
  [str "insert", str "update", str "delete", str "drop",
   str "alter", str "create", str "truncate", str "merge"]

/-- `BANNED_SQL.search(s)` as a Boolean (`src/app.py:303`). -/
def banned_search (s : Str) : Bool := scanWords BANNED_SQL none s

/-- The source allow-list `ALLOWED_FROM` (`src/app.py:23`). -/
def ALLOWED_FROM : List Str := [str "dbo.cqcr310"]

/-- Match `\bfrom\s+<tbl>\b` (case-insensitive, `tbl` taken literally) at the
current position (`src/app.py:306`). -/
def fromTblAt (tbl : Str) (prev : Option Char) (s : Str) : Bool :=
  noWordBefore prev && ciStarts (str "from") s &&
    (let r1 := s.drop 4
     let ws := r1.takeWhile isPySpace
     !ws.isEmpty && ciStarts tbl (r1.drop ws.length) &&
       noWordAt (r1.drop (ws.length + tbl.length)))

/-- `re.search` of `\bfrom\s+<tbl>\b` over the whole string. -/
def fromTblScan (tbl : Str) : Option Char → Str → Bool
  | _, [] => false
  | prev, c :: rest => fromTblAt tbl prev (c :: rest) || fromTblScan tbl (some c) rest

/-- `any(re.search(rf"\bfrom\s+{re.escape(t)}\b", s, re.IGNORECASE) for t in ALLOWED_FROM)`. -/
def hasAllowedFrom (s : Str) : Bool := ALLOWED_FROM.any (fun t => fromTblScan t none s)

/-- The three policy-violation reasons raised by `validate_sql`. -/
inductive Violation
  | statementKind
  | forbiddenKeyword
  | sourceNotAllowed
deriving DecidableEq

/-- `validate_sql` (`src/app.py:299-310`): trim, require a leading SELECT,
reject deny-listed keywords, require an allow-listed FROM source, and
return the trimmed query on success. -/
def validate_sql (sql : Str) : Except Violation Str :=
  let s := pyTrim sql
  if startsWithSelect s then
    if banned_search s then Except.error Violation.forbiddenKeyword
    else if hasAllowedFrom s then Except.ok s
    else Except.error Violation.sourceNotAllowed
  else Except.error Violation.statementKind

instance decEqExcept {ε α : Type} [DecidableEq ε] [DecidableEq α] :
    DecidableEq (Except ε α) := fun x y =>
  match x, y with
  | Except.error a, Except.error b =>
    if h : a = b then isTrue (by rw [h]) else isFalse (fun hc => h (by injection hc))
  | Except.ok a, Except.ok b =>
    if h : a = b then isTrue (by rw [h]) else isFalse (fun hc => h (by injection hc))
  | Except.error _, Except.ok _ => isFalse (fun hc => Except.noConfusion hc)
  | Except.ok _, Except.error _ => isFalse (fun hc => Except.noConfusion hc)

/-- Modelled from the spec's words (claim C2 only): trim whitespace, then
remove a single *trailing* statement terminator, if present. This is the
trimming the claim describes; the source's `pyTrim` differs. -/
def specTrimSingleSemi (s : Str) : Str :=
  let t := pyStripWs s
  match t.reverse with
  | c :: rest => if c == ';' then rest.reverse else t
  | [] => t

/-- Canonical plant names, the keys of `PLANT_ALIAS` (`src/app.py:34-38`). -/
def PLANT_KEYS : List Str := [str "越南", str "昆山", str "增達"]

/-- The reverse alias map `ALIAS_TO_CN` (`src/app.py:41-44`): lower-cased
alias to canonical name, in the insertion order of the Python dict
(duplicate aliases such as `VN`/`vn` collapse to their first position). -/
def ALIAS_TO_CN : List (Str × Str) :=
  [(str "越南", str "越南"), (str "vietnam", str "越南"), (str "vn", str "越南"),
   (str "越廠", str "越南"), (str "越南廠", str "越南"),
   (str "昆山", str "昆山"), (str "ks", str "昆山"), (str "ak", str "昆山"),
   (str "昆山廠", str "昆山"),
   (str "增達", str "增達"), (str "zd", str "增達"), (str "增達廠", str "增達")]

/-- Python dict lookup over an association list (first match). -/
def lookupAssoc (k : Str) : List (Str × Str) → Option Str
  | [] => none
  | (a, v) :: rest => if a = k then some v else lookupAssoc k rest

/-- One-pass, left-to-right, non-overlapping `str.replace(pat, rep)`.
Fuelled by the input length; every step consumes at least one character. -/
def replaceAllGo (pat rep : Str) : Nat → Str → Str
  | 0, s => s
  | _ + 1, [] => []
  | fuel + 1, c :: rest =>
    if !pat.isEmpty && litStarts pat (c :: rest) then
      rep ++ replaceAllGo pat rep fuel ((c :: rest).drop pat.length)
    else c :: replaceAllGo pat rep fuel rest

/-- Python `s.replace(pat, rep)`. -/
def replaceAll (pat rep s : Str) : Str := replaceAllGo pat rep s.length s

/-- `normalize_plant_value` (`src/app.py:59-75`): strip quotes/whitespace,
lower-case, collapse double spaces, rewrite `viet-nam`, then match the
canonical names directly or the alias table. The `raw is None` guard of
the Python code is unreachable here because every call site passes a
string. -/
def normalize_plant_value (raw : Str) : Option Str :=
  let v := pyStripWs (stripChar sqCh (stripChar dqCh (pyStripWs raw)))
  if v = [] then none
  else
    let key0 := lowers v
    let key1 := pyStripWs (replaceAll (str "  ") (str " ") key0)
    let key2 := replaceAll (str "viet-nam") (str "vietnam") key1
    let key3 := replaceAll (str "viet nam") (str "viet nam") key2
    if v ∈ PLANT_KEYS then some v
    else lookupAssoc key3 ALIAS_TO_CN

/-- The containment loop of `normalize_plant_from_text`: first alias (in
table order) that occurs as a substring wins. -/
def lookupContain (t : Str) : List (Str × Str) → Option Str
  | [] => none
  | (a, cn) :: rest => if !a.isEmpty && containsSub t a then some cn else lookupContain t rest

/-- `normalize_plant_from_text` (`src/app.py:47-56`). -/
def normalize_plant_from_text (text : Str) : Option Str :=
  if text = [] then none
  else lookupContain (lowers (pyStripWs text)) ALIAS_TO_CN

/-- Python `x or y` on optional strings: an empty string is falsy. -/
def pyOrStr : Option Str → Option Str → Option Str
  | some s, b => if s = [] then b else some s
  | none, b => b

/-- Group 1 of the plant regexes, `(\bPlant\b|\[Plant\]|` then backtick
`Plant` backtick `)`, case-insensitive, alternatives tried left to right;
returns the matched original text and the remainder. -/
def matchPlantName (prev : Option Char) (s : Str) : Option (Str × Str) :=
  if noWordBefore prev && ciStarts (str "plant") s && noWordAt (s.drop 5) then
    some (s.take 5, s.drop 5)
  else if ciStarts (str "[plant]") s then some (s.take 7, s.drop 7)
  else if ciStarts (str "`plant`") s then some (s.take 7, s.drop 7)
  else none

/-- Match `eq_pattern` (`src/app.py:99`) at the current position and build
the replacement of `repl_eq` (`src/app.py:91-97`); returns the replacement
text, the last original character consumed (the closing quote) and the
remainder. -/
def matchEqAt (pcn : Option Str) (prev : Option Char) (s : Str) : Option (Str × Char × Str) :=
  match matchPlantName prev s with
  | none => none
  | some (left, r1) =>
    match r1.dropWhile isPySpace with
    | '=' :: r3 =>
      match r3.dropWhile isPySpace with
      | q :: r5 =>
        if q == sqCh || q == dqCh then
          let v := r5.takeWhile (fun ch => !(ch == sqCh || ch == dqCh))
          match r5.drop v.length with
          | q2 :: r6 =>
            if !v.isEmpty && q2 == q then
              let cn := (pyOrStr pcn (pyOrStr (normalize_plant_value v) (some v))).getD v
              some (left ++ str " = N" ++ [sqCh] ++ cn ++ [sqCh], q, r6)
            else none
          | [] => none
        else none
      | [] => none
    | _ => none

/-- `eq_pattern.sub(repl_eq, sql)`: left-to-right, non-overlapping. -/
def subEqGo (pcn : Option Str) : Nat → Option Char → Str → Str
  | 0, _, s => s
  | _ + 1, _, [] => []
  | fuel + 1, prev, c :: rest =>
    match matchEqAt pcn prev (c :: rest) with
    | some (rep, lastc, after) => rep ++ subEqGo pcn fuel (some lastc) after
    | none => c :: subEqGo pcn fuel (some c) rest

def subEq (pcn : Option Str) (s : Str) : Str := subEqGo pcn s.length none s

/-- Python `",".split` on the inside of an `IN (...)` list. -/
def splitComma : Str → List Str
  | [] => [[]]
  | ',' :: rest => [] :: splitComma rest
  | c :: rest =>
    match splitComma rest with
    | [] => [[c]]
    | hd :: tl => (c :: hd) :: tl

/-- One element of `repl_in` (`src/app.py:103-113`): strip the literal,
normalize it (the question's plant overrides), and re-emit `N'...'`. -/
def inValRepl (pcn : Option Str) (p : Str) : Str :=
  let pv := pyStripWs (stripChar dqCh (stripChar sqCh (pyStripWs p)))
  let cn := (pyOrStr pcn (pyOrStr (normalize_plant_value pv) (some pv))).getD pv
  str "N" ++ [sqCh] ++ cn ++ [sqCh]

/-- Match `in_pattern` (`src/app.py:115`) at the current position and build
the replacement of `repl_in`; returns the replacement and the remainder. -/
def matchInAt (pcn : Option Str) (prev : Option Char) (s : Str) : Option (Str × Str) :=
  match matchPlantName prev s with
  | none => none
  | some (left, r1) =>
    let ws := r1.takeWhile isPySpace
    if ws.isEmpty then none
    else
      let r2 := r1.drop ws.length
      if ciStarts (str "in") r2 then
        match (r2.drop 2).dropWhile isPySpace with
        | '(' :: r4 =>
          let inside := r4.takeWhile (fun ch => !(ch == ')'))
          if inside.isEmpty then none
          else
            match r4.drop inside.length with
            | ')' :: r5 =>
              some (left ++ str " IN (" ++
                List.intercalate (str ", ") ((splitComma inside).map (inValRepl pcn)) ++
                str ")", r5)
            | _ => none
        | _ => none
      else none

/-- `in_pattern.sub(repl_in, sql)`: left-to-right, non-overlapping. -/
def subInGo (pcn : Option Str) : Nat → Option Char → Str → Str
  | 0, _, s => s
  | _ + 1, _, [] => []
  | fuel + 1, prev, c :: rest =>
    match matchInAt pcn prev (c :: rest) with
    | some (rep, after) => rep ++ subInGo pcn fuel (some ')') after
    | none => c :: subInGo pcn fuel (some c) rest

def subIn (pcn : Option Str) (s : Str) : Str := subInGo pcn s.length none s

/-- Match of `(\bPlant\b|\[Plant\]|...)\s*(=|IN)\s*` at one position
(`src/app.py:120`). -/
def plantFilterAt (prev : Option Char) (s : Str) : Bool :=
  match matchPlantName prev s with
  | none => false
  | some (_, r1) =>
    match r1.dropWhile isPySpace with
    | '=' :: _ => true
    | r2 => ciStarts (str "in") r2

def hasPlantFilterScan : Option Char → Str → Bool
  | _, [] => false
  | prev, c :: rest => plantFilterAt prev (c :: rest) || hasPlantFilterScan (some c) rest

/-- `re.search` of the plant-filter pattern (`src/app.py:120`). -/
def hasPlantFilter (s : Str) : Bool := hasPlantFilterScan none s

/-- `re.search(r"\bWHERE\b", sql, re.IGNORECASE)` (`src/app.py:124`). -/
def hasWhere (s : Str) : Bool := scanWords [str "where"] none s

/-- Match `\bkw1\s+kw2\b` (case-insensitive) at one position; returns the
matched original text and the remainder. -/
def matchSepKwAt (kw1 kw2 : Str) (prev : Option Char) (s : Str) : Option (Str × Str) :=
  if noWordBefore prev && ciStarts kw1 s then
    let r1 := s.drop kw1.length
    let ws := r1.takeWhile isPySpace
    if !ws.isEmpty && ciStarts kw2 (r1.drop ws.length) &&
        noWordAt (r1.drop (ws.length + kw2.length)) then
      some (s.take (kw1.length + ws.length + kw2.length), r1.drop (ws.length + kw2.length))
    else none
  else none

/-- `\b(GROUP\s+BY|ORDER\s+BY)\b`, alternatives in pattern order. -/
def matchGroupOrderAt (prev : Option Char) (s : Str) : Option (Str × Str) :=
  match matchSepKwAt (str "group") (str "by") prev s with
  | some m => some m
  | none => matchSepKwAt (str "order") (str "by") prev s

/-- `re.sub(..., count=1)` of the GROUP BY / ORDER BY pattern, with the
replacement `pfx ++ matched-text` (the Python replacement keeps group 1). -/
def subGroupOrderOnceGo (pfx : Str) : Option Char → Str → Str
  | _, [] => []
  | prev, c :: rest =>
    match matchGroupOrderAt prev (c :: rest) with
    | some (m, after) => pfx ++ m ++ after
    | none => c :: subGroupOrderOnceGo pfx (some c) rest

def subGroupOrderOnce (pfx s : Str) : Str := subGroupOrderOnceGo pfx none s

/-- Python `str.rstrip()`. -/
def rstripWs : Str → Str := dropTrailingBy isPySpace

/-- Python `str.rstrip(";")`. -/
def rstripSemi : Str → Str := dropTrailingBy (fun c => c == ';')

/-- `enforce_plant_in_sql` (`src/app.py:78-137`): rewrite `Plant = '...'`
and `Plant IN (...)` literals to canonical `N'...'` values (the plant
from the question text overrides), and inject a plant filter when the
question names a plant but the query has none. -/
def enforce_plant_in_sql (sql : Str) (plant_cn : Option Str) : Str :=
  if sql = [] then sql
  else
    let original := sql
    let s2 := subIn plant_cn (subEq plant_cn sql)
    match plant_cn with
    | none => s2
    | some pcn =>
      if pcn = [] then s2
      else if hasPlantFilter s2 then s2
      else
        let inject := str " Plant = N" ++ [sqCh] ++ pcn ++ [sqCh] ++ str " "
        if hasWhere s2 then
          let s3 := subGroupOrderOnce (str "AND" ++ inject ++ str "\n") s2
          if s3 = original then rstripSemi (rstripWs s3) ++ str "\nAND" ++ inject ++ str ";"
          else s3
        else
          let s3 := subGroupOrderOnce (str "WHERE" ++ inject ++ str "\n") s2
          if s3 = original then rstripSemi (rstripWs s3) ++ str "\nWHERE" ++ inject ++ str ";"
          else s3

/-- The spec's `normalize(text, query)`: plant-filter enforcement driven by
the plant found in the question text. -/
def normalizeQuery (text q : Str) : Str :=
  enforce_plant_in_sql q (normalize_plant_from_text text)

/-- `DEFECT_GROUP_ALIAS["不良"]` (`src/app.py:153-155`). -/
def DEFECT_GROUP_ALIAS : List Str := [str "不良", str "ng", str "不良批"]

/-- `DEFECT_ALIAS_TO_CN` (`src/app.py:158-161`), in dict insertion order. -/
def DEFECT_ALIAS_TO_CN : List (Str × Str) :=
  [(str "驗退", str "驗退"), (str "判退", str "驗退"),
   (str "特採", str "特採"),
   (str "允收", str "允收"), (str "ok", str "允收"), (str "accept", str "允收")]

/-- The individual-alias loop of `normalize_defect_from_text`: collect the
canonical names whose alias occurs in the text. The Python code collects
into a `set` whose iteration order is unspecified; insertion order is used
here, and no claim depends on the order. -/
def collectDefects (t : Str) : List (Str × Str) → List Str → List Str
  | [], acc => acc
  | (a, cn) :: rest, acc =>
    if !a.isEmpty && containsSub t a && !(decide (cn ∈ acc)) then
      collectDefects t rest (acc ++ [cn])
    else collectDefects t rest acc

/-- `normalize_defect_from_text` (`src/app.py:164-184`): group aliases are
checked first and expand to the full pair; otherwise individual aliases
are collected. -/
def normalize_defect_from_text (text : Str) : Option (List Str) :=
  if text = [] then none
  else
    let t := lowers (pyStripWs text)
    if DEFECT_GROUP_ALIAS.any (fun g => containsSub t g) then
      some [str "驗退", str "特採"]
    else
      let found := collectDefects t DEFECT_ALIAS_TO_CN []
      if found = [] then none else some found

/-- Concrete query for claim C4: a `Plant IN (...)` filter with an alias
literal. -/
def c4Query : Str :=
  str "SELECT * FROM dbo.cqcr310 WHERE Plant IN (" ++ [sqCh] ++ str "VN" ++ [sqCh] ++ str ")"

/-- Concrete query from claim C5's own wording: a `Plant = 'OtherValue'`
predicate. -/
def c5Query : Str :=
  str "SELECT * FROM dbo.cqcr310 WHERE Plant = " ++ [sqCh] ++ str "OtherValue" ++ [sqCh]

/-- The C5 query with its site literal replaced by the canonical value as a
wide-character literal. -/
def c5Result (cn : Str) : Str :=
  str "SELECT * FROM dbo.cqcr310 WHERE Plant = N" ++ [sqCh] ++ cn ++ [sqCh]

/-- The in-memory dedup store `PROCESSED` (`src/app.py:406`): event key to
first-seen timestamp. The Python dict (unique keys) is modelled as an
association list whose keys stay unique because insertion happens only on
a miss. Timestamps (`time.time()` floats) are modelled as rationals. -/
abbrev DedupState := List (Str × ℚ)

/-- `DEDUP_TTL_SECONDS = 15 * 60` (`src/app.py:407`). -/
def DEDUP_TTL_SECONDS : ℚ := 15 * 60

/-- Python dict membership/lookup over the dedup store. -/
def lookupTs (k : Str) : DedupState → Option ℚ
  | [] => none
  | kv :: rest => if kv.1 = k then some kv.2 else lookupTs k rest

/-- `_cleanup_processed` (`src/app.py:409-413`): drop entries strictly older
than the time-to-live. -/
def _cleanup_processed (now : ℚ) (st : DedupState) : DedupState :=
  st.filter (fun kv => decide (now - kv.2 ≤ DEDUP_TTL_SECONDS))

/-- `is_duplicate` (`src/app.py:415-421`), with the global store and clock
passed explicitly: purge, then return true on a hit (store unchanged), or
record the key with the current time and return false. -/
def is_duplicate (event_key : Str) (now : ℚ) (st : DedupState) : Bool × DedupState :=
  match lookupTs event_key (_cleanup_processed now st) with
  | some _ => (true, _cleanup_processed now st)
  | none => (false, (event_key, now) :: _cleanup_processed now st)

/-- Error outcomes of `call_openai` (`src/app.py:238-266`). -/
inductive OpenAIErr
  | noApiKey
  | httpError (status : Nat)
  | rateLimited
deriving DecidableEq

/-- The retry condition `r.status_code == 429 or (500 <= r.status_code < 600)`
(`src/app.py:255`). -/
def isRetryable (st : Nat) : Bool :=
  st == 429 || (decide (500 ≤ st) && decide (st < 600))

/-- The non-retry outcome of one attempt (`src/app.py:261-264`): any other
status at least 400 raises immediately, otherwise the content is returned. -/
def stopResult (r : Nat × Str) : Except OpenAIErr Str :=
  if 400 ≤ r.1 then Except.error (OpenAIErr.httpError r.1) else Except.ok r.2

/-- The retry loop of `call_openai` (`src/app.py:252-266`). `resp i` is the
HTTP response (status, content) of attempt `i`; `jit i` is the value drawn
by `random.uniform(0, 0.8)` at attempt `i`. The second component collects
the `time.sleep` durations `2 ** attempt + jitter`. After the fixed number
of retryable responses the loop raises the rate-limited error. -/
def openai_loop (resp : Nat → Nat × Str) (jit : Nat → ℚ) :
    Nat → Nat → Except OpenAIErr Str × List ℚ
  | 0, _ => (Except.error OpenAIErr.rateLimited, [])
  | n + 1, a =>
    if isRetryable (resp a).1 then
      let tail := openai_loop resp jit n (a + 1)
      (tail.1, ((2 : ℚ) ^ a + jit a) :: tail.2)
    else (stopResult (resp a), [])

/-- `call_openai`: the missing-key guard (`src/app.py:239-240`) followed by
the 5-attempt retry loop. -/
def call_openai (key : Str) (resp : Nat → Nat × Str) (jit : Nat → ℚ) :
    Except OpenAIErr Str × List ℚ :=
  if key = [] then (Except.error OpenAIErr.noApiKey, []) else openai_loop resp jit 5 0

/-- The attempt indices `[a, a+1, ..., a+n-1]`. -/
def attemptList : Nat → Nat → List Nat
  | _, 0 => []
  | a, n + 1 => a :: attemptList (a + 1) n

/-- A concrete response function for witnesses: every attempt succeeds. -/
def resp200 : Nat → Nat × Str := fun _ => (200, str "ok")

/-- A concrete jitter function for witnesses. -/
def jitZero : Nat → ℚ := fun _ => 0

/-- JSON-style scalar values of a result row. -/
inductive Val
  | vNull
  | vBool (b : Bool)
  | vNum (q : ℚ)
  | vStr (s : Str)
deriving DecidableEq

/-- A result row: column name to scalar value (Python dict from JSON). -/
abbrev Row := List (Str × Val)

/-- Python `row.get(k)` (first binding; keys are unique in a dict). -/
def rowGet (r : Row) (k : Str) : Option Val :=
  match r with
  | [] => none
  | kv :: rest => if kv.1 = k then some kv.2 else rowGet rest k

/-- Python truthiness of a scalar: `None`, `False`, `0` and `""` are falsy. -/
def truthy : Val → Bool
  | Val.vNull => false
  | Val.vBool b => b
  | Val.vNum q => decide (q ≠ 0)
  | Val.vStr s => decide (s ≠ [])

/-- Python `x or y` over optional values: a missing key (`None`) or a falsy
value falls through to the right operand, which is returned as-is. -/
def pyOrV : Option Val → Option Val → Option Val
  | some v, b => if truthy v then some v else b
  | none, b => b

/-- Numeric value of a digit string. -/
def digitsVal (ds : Str) : ℚ := ds.foldl (fun a c => a * 10 + ((c.toNat - 48 : ℕ) : ℚ)) 0

/-- Python `float(s)` on a string, for the plain decimal forms
`[+-]digits[.digits]`. Exponent, infinity/NaN and underscore forms are not
modelled; no claim evaluates a string-valued rate column. -/
def parseFloat (s : Str) : Option ℚ :=
  let t := pyStripWs s
  let sgn : ℚ × Str :=
    match t with
    | '-' :: r => (-1, r)
    | '+' :: r => (1, r)
    | _ => (1, t)
  let ip := sgn.2.takeWhile Char.isDigit
  let r2 := sgn.2.drop ip.length
  match r2 with
  | [] => if ip.isEmpty then none else some (sgn.1 * digitsVal ip)
  | '.' :: r3 =>
    let fp := r3.takeWhile Char.isDigit
    if (r3.drop fp.length).isEmpty && !(ip.isEmpty && fp.isEmpty) then
      some (sgn.1 * (digitsVal ip + digitsVal fp / (10 : ℚ) ^ fp.length))
    else none
  | _ => none

/-- `get_float` (`src/app.py:372-376`): `float(x)` under `try/except`;
`float(None)` and unparsable strings raise and yield `None`;
`float(True) = 1.0`. -/
def get_float : Option Val → Option ℚ
  | some (Val.vNum q) => some q
  | some (Val.vBool b) => some (if b then 1 else 0)
  | some (Val.vStr s) => parseFloat s
  | some Val.vNull => none
  | none => none

/-- Floor of a rational as an integer (computable). -/
def ratFloor (x : ℚ) : ℤ := Int.fdiv x.num x.den

/-- Round to the nearest integer, ties to even (CPython's rounding for
string formatting), on the exact rational value. -/
def roundHalfEven (x : ℚ) : ℤ :=
  if x - (ratFloor x : ℚ) < 1 / 2 then ratFloor x
  else if 1 / 2 < x - (ratFloor x : ℚ) then ratFloor x + 1
  else if ratFloor x % 2 = 0 then ratFloor x else ratFloor x + 1

/-- Decimal digits of a natural number. -/
def natStr (n : Nat) : Str := Nat.toDigits 10 n

/-- Python `f"{v:.2f}"` on the exact rational value (round-half-even, two
decimals). Binary-float representation artifacts are not reproduced; the
claims only evaluate this at exact values such as 0. -/
def formatF2 (v : ℚ) : Str :=
  (if roundHalfEven (v * 100) < 0 then ['-'] else []) ++
    natStr ((roundHalfEven (v * 100)).natAbs / 100) ++ ['.'] ++
    (if (roundHalfEven (v * 100)).natAbs % 100 < 10 then
      '0' :: natStr ((roundHalfEven (v * 100)).natAbs % 100)
    else natStr ((roundHalfEven (v * 100)).natAbs % 100))

/-- Decimal rendering of an integer. -/
def intStr (i : ℤ) : Str := (if i < 0 then ['-'] else []) ++ natStr i.natAbs

/-- Python `str(x)` / f-string interpolation of a scalar. Numeric rendering
is approximate (Python distinguishes int and float reprs); no claim
interpolates a numeric-valued text field. -/
def valToStr : Val → Str
  | Val.vStr s => s
  | Val.vNull => str "None"
  | Val.vBool b => if b then str "True" else str "False"
  | Val.vNum q => if q.den = 1 then intStr q.num else intStr q.num ++ ['/'] ++ natStr q.den

/-- The two-candidate column chain with a final `or ""`, e.g.
`first.get("plant") or first.get("Plant") or ""` (`src/app.py:381-383`). -/
def chain2 (r : Row) (k1 k2 : Str) : Str :=
  match pyOrV (rowGet r k1) (pyOrV (rowGet r k2) none) with
  | some v => valToStr v
  | none => []

/-- The NG-rate candidate chain
`first.get("ng_rate") or first.get("NG_Rate") or first.get("ngRate")`
(`src/app.py:384`). -/
def ngChain (r : Row) : Option Val :=
  pyOrV (rowGet r (str "ng_rate")) (pyOrV (rowGet r (str "NG_Rate")) (rowGet r (str "ngRate")))

/-- The leading summary line (`src/app.py:386-390`). -/
def headLine (first : Row) : Str :=
  let plant := chain2 first (str "plant") (str "Plant")
  let part_no := chain2 first (str "part_no") (str "Product_Number")
  let part_name := chain2 first (str "part_name") (str "Product_Name")
  match get_float (ngChain first) with
  | some r =>
    str "📌 近30天 NG率最高：" ++ plant ++ str " / " ++ part_no ++ str "（" ++ part_name ++
      str "），NG率約 " ++ formatF2 (r * 100) ++ str "%"
  | none =>
    str "📌 近30天結果第一名：" ++ plant ++ str " / " ++ part_no ++ str "（" ++ part_name ++
      str "）"

/-- One enumerated row line (`src/app.py:393-400`). -/
def rowLine (i : Nat) (r : Row) : Str :=
  let p := chain2 r (str "plant") (str "Plant")
  let pn := chain2 r (str "part_no") (str "Product_Number")
  match get_float (ngChain r) with
  | some pr =>
    natStr i ++ str ". " ++ p ++ str " / " ++ pn ++ str "  NG率 " ++ formatF2 (pr * 100) ++
      str "%"
  | none => natStr i ++ str ". " ++ p ++ str " / " ++ pn

/-- `enumerate(top, 1)` over the row loop. -/
def enumLines : Nat → List Row → List Str
  | _, [] => []
  | i, r :: rest => rowLine i r :: enumLines (i + 1) rest

/-- `summarize_locally` (`src/app.py:368-402`): fixed no-data message for an
empty row set, otherwise a heading plus up to 10 enumerated rows, joined
with newlines and truncated to 4500 characters. The `question` and `sql`
parameters are unused, as in the source. -/
def summarize_locally (question sql : Str) (rows : List Row) : Str :=
  if rows = [] then str "查無資料：可能是篩選條件太嚴格或近30天沒有資料。"
  else
    let top := rows.take 10
    let first := top.headD []
    let lines := headLine first :: str "前10名如下：" :: enumLines 1 top
    (List.intercalate (str "\n") lines).take 4500

/-- Claim C1 (amended): queries that pass the leading-SELECT check and contain
a deny-listed keyword as a whole word fail with the forbidden-keyword
violation, regardless of any source reference present. -/
theorem c1_amended_thm : ∀ sql : Str, startsWithSelect (pyTrim sql) = true →
    banned_search (pyTrim sql) = true →
    validate_sql sql = Except.error Violation.forbiddenKeyword := by
  intro sql h1 h2
  simp [validate_sql, h1, h2]

/-- Witness for `c1_amended_thm` at a concrete query that also contains a
valid allow-listed source reference. -/
theorem c1_amended_w :
    startsWithSelect (pyTrim (str "select delete from dbo.cqcr310")) = true ∧
    banned_search (pyTrim (str "select delete from dbo.cqcr310")) = true ∧
    hasAllowedFrom (pyTrim (str "select delete from dbo.cqcr310")) = true ∧
    validate_sql (str "select delete from dbo.cqcr310") =
      Except.error Violation.forbiddenKeyword :=
  ⟨by decide, by decide, by decide,
   c1_amended_thm (str "select delete from dbo.cqcr310") (by decide) (by decide)⟩

/-- Counterexample to claim C1 as stated: `DELETE FROM dbo.cqcr310` contains
the mutating keyword `delete` as a whole word and a valid allow-listed
source reference, yet `validate_sql` fails with the statement-kind
violation (that check runs first), not the forbidden-keyword violation. -/
theorem c1_counter :
    banned_search (pyTrim (str "DELETE FROM dbo.cqcr310")) = true ∧
    hasAllowedFrom (pyTrim (str "DELETE FROM dbo.cqcr310")) = true ∧
    validate_sql (str "DELETE FROM dbo.cqcr310") = Except.error Violation.statementKind ∧
    validate_sql (str "DELETE FROM dbo.cqcr310") ≠ Except.error Violation.forbiddenKeyword := by
  refine ⟨by decide, by decide, by decide, by decide⟩

/-- Claim C2 (amended): after stripping surrounding whitespace and then all
leading and trailing semicolons, a query not beginning (case-insensitively)
with `select` fails with the statement-kind violation; the check runs first,
so this holds regardless of keywords or source references present. -/
theorem c2_amended_thm : ∀ sql : Str, startsWithSelect (pyTrim sql) = false →
    validate_sql sql = Except.error Violation.statementKind := by
  intro sql h1
  simp [validate_sql, h1]

/-- Witness for `c2_amended_thm` at a concrete non-SELECT query. -/
theorem c2_amended_w :
    startsWithSelect (pyTrim (str "DROP TABLE dbo.cqcr310")) = false ∧
    validate_sql (str "DROP TABLE dbo.cqcr310") = Except.error Violation.statementKind :=
  ⟨by decide, c2_amended_thm (str "DROP TABLE dbo.cqcr310") (by decide)⟩

/-- Counterexample to claim C2 as stated: `;select * from dbo.cqcr310` does
not begin with SELECT after trimming whitespace and a single trailing
terminator (it begins with `;`), so the claim predicts a statement-kind
failure; but Python `strip(";")` also removes the *leading* semicolon, so
`validate_sql` accepts the query. -/
theorem c2_counter :
    startsWithSelect (specTrimSingleSemi (str ";select * from dbo.cqcr310")) = false ∧
    validate_sql (str ";select * from dbo.cqcr310") =
      Except.ok (str "select * from dbo.cqcr310") := by
  refine ⟨by decide, by decide⟩

/-- Claim C3 (amended): among queries that pass the leading-SELECT and
keyword checks, those whose FROM clause references no allow-listed source
fail with the source violation, and those referencing one are returned
trimmed as the validated query. -/
theorem c3_amended_thm : ∀ sql : Str,
    (startsWithSelect (pyTrim sql) = true → banned_search (pyTrim sql) = false →
      hasAllowedFrom (pyTrim sql) = false →
      validate_sql sql = Except.error Violation.sourceNotAllowed) ∧
    (startsWithSelect (pyTrim sql) = true → banned_search (pyTrim sql) = false →
      hasAllowedFrom (pyTrim sql) = true →
      validate_sql sql = Except.ok (pyTrim sql)) := by
  intro sql
  constructor
  · intro h1 h2 h3
    simp [validate_sql, h1, h2, h3]
  · intro h1 h2 h3
    simp [validate_sql, h1, h2, h3]

/-- Witness for `c3_amended_thm`: a SELECT without an allow-listed source is
rejected with the source violation, and a fully conforming SELECT is
returned trimmed. -/
theorem c3_amended_w :
    (validate_sql (str "select 1") = Except.error Violation.sourceNotAllowed) ∧
    (validate_sql (str "select * from dbo.cqcr310;") =
      Except.ok (str "select * from dbo.cqcr310")) := by
  constructor
  · exact (c3_amended_thm (str "select 1")).1 (by decide) (by decide) (by decide)
  · have h := (c3_amended_thm (str "select * from dbo.cqcr310;")).2
      (by decide) (by decide) (by decide)
    rw [h]
    decide

/-- Counterexample to claim C3 as stated: `DELETE FROM dbo.foo` references a
source outside the allow-list, yet `validate_sql` fails with the
statement-kind violation (that check runs first), not the source violation. -/
theorem c3_counter :
    hasAllowedFrom (pyTrim (str "DELETE FROM dbo.foo")) = false ∧
    validate_sql (str "DELETE FROM dbo.foo") = Except.error Violation.statementKind ∧
    validate_sql (str "DELETE FROM dbo.foo") ≠ Except.error Violation.sourceNotAllowed := by
  refine ⟨by decide, by decide, by decide⟩

/-- Helper: a successful containment lookup returns a canonical value that
occurs in the table. -/
theorem lookupContain_mem : ∀ (l : List (Str × Str)) (t cn : Str),
    lookupContain t l = some cn → ∃ p ∈ l, p.2 = cn := by
  intro l
  induction l with
  | nil => intro t cn h; simp [lookupContain] at h
  | cons hd tl ih =>
    intro t cn h
    unfold lookupContain at h
    split at h
    · exact ⟨hd, List.mem_cons_self hd tl, by injection h⟩
    · obtain ⟨p, hp, hpe⟩ := ih t cn h
      exact ⟨p, List.mem_cons_of_mem hd hp, hpe⟩

/-- Helper: any plant found in question text is one of the three canonical
names. -/
theorem plant_cn_cases : ∀ text cn : Str, normalize_plant_from_text text = some cn →
    cn = str "越南" ∨ cn = str "昆山" ∨ cn = str "增達" := by
  intro text cn h
  unfold normalize_plant_from_text at h
  split at h
  · exact absurd h (by simp)
  · obtain ⟨p, hp, hpe⟩ := lookupContain_mem ALIAS_TO_CN _ cn h
    have hall : ∀ p ∈ ALIAS_TO_CN,
        p.2 = str "越南" ∨ p.2 = str "昆山" ∨ p.2 = str "增達" := by decide
    exact hpe ▸ hall p hp

/-- Claim C4: plant normalization is *not* idempotent. At question text `""`
(no site alias) and a query with a `Plant IN ('VN')` filter, the first
application rewrites the literal to `N'越南'`, and a second application
wraps it again into the mangled literal `N'N'越南'`. -/
theorem c4_bug_eval :
    normalizeQuery [] c4Query =
      str "SELECT * FROM dbo.cqcr310 WHERE Plant IN (N" ++ [sqCh] ++ str "越南" ++ [sqCh] ++ str ")" ∧
    normalizeQuery [] (normalizeQuery [] c4Query) =
      str "SELECT * FROM dbo.cqcr310 WHERE Plant IN (N" ++ [sqCh] ++ str "N" ++ [sqCh] ++
        str "越南" ++ [sqCh] ++ str ")" ∧
    normalizeQuery [] (normalizeQuery [] c4Query) ≠ normalizeQuery [] c4Query := by
  refine ⟨by decide, by decide, by decide⟩

/-- Claim C5: when the question text names a site (any alias) and the query
carries `Plant = 'OtherValue'`, the normalized query's site literal is the
alias's canonical Chinese value emitted as `N'...'`, not `'OtherValue'`. -/
theorem c5_site_override : ∀ text cn : Str, normalize_plant_from_text text = some cn →
    enforce_plant_in_sql c5Query (some cn) = c5Result cn ∧ cn ≠ str "OtherValue" := by
  intro text cn h
  rcases plant_cn_cases text cn h with h1 | h1 | h1 <;> subst h1 <;>
    exact ⟨by decide, by decide⟩

/-- Witness for `c5_site_override` at a concrete question naming 昆山 via the
alias `ks`. -/
theorem c5_site_override_w :
    normalize_plant_from_text (str "請給我ks的NG率") = some (str "昆山") ∧
    enforce_plant_in_sql c5Query (some (str "昆山")) = c5Result (str "昆山") :=
  ⟨by decide, (c5_site_override (str "請給我ks的NG率") (str "昆山") (by decide)).1⟩

/-- Claim C6: any question text containing a group alias of 不良 (不良, ng,
不良批; case-insensitive containment) maps to the full canonical pair
[驗退, 特採], regardless of any individual aliases also present. -/
theorem c6_group_expansion : ∀ text : Str,
    DEFECT_GROUP_ALIAS.any (fun g => containsSub (lowers (pyStripWs text)) g) = true →
    normalize_defect_from_text text = some [str "驗退", str "特採"] := by
  intro text h
  have htext : ¬(text = []) := by
    intro he
    rw [he] at h
    exact absurd h (by decide)
  simp [normalize_defect_from_text, htext, h]

/-- Witness for `c6_group_expansion`: the text contains both the individual
alias 判退 and the group alias 不良批, and the group expansion wins. -/
theorem c6_group_expansion_w :
    DEFECT_GROUP_ALIAS.any
      (fun g => containsSub (lowers (pyStripWs (str "判退跟不良批都列出來"))) g) = true ∧
    normalize_defect_from_text (str "判退跟不良批都列出來") = some [str "驗退", str "特採"] :=
  ⟨by decide, c6_group_expansion (str "判退跟不良批都列出來") (by decide)⟩

/-- Helper: purging never makes an absent key present. -/
theorem lookupTs_filter_none : ∀ (st : DedupState) (k : Str) (p : Str × ℚ → Bool),
    lookupTs k st = none → lookupTs k (st.filter p) = none := by
  intro st
  induction st with
  | nil => intro k p _; rfl
  | cons hd tl ih =>
    intro k p h
    unfold lookupTs at h
    split at h
    · exact absurd h (by simp)
    · rename_i hne
      rw [List.filter_cons]
      split
      · unfold lookupTs
        rw [if_neg hne]
        exact ih k p h
      · exact ih k p h

/-- Claim C7: for a key not yet in the store, the first check returns false
and records the key at the current time; a second check within the
time-to-live returns true and leaves the stored timestamp unchanged; once
more than the time-to-live has elapsed since the first observation, the
entry is purged by the cleanup preceding the next check, which therefore
returns false again. -/
theorem is_duplicate_spec : ∀ (st : DedupState) (k : Str) (t0 t1 t2 : ℚ),
    lookupTs k st = none → t1 - t0 ≤ DEDUP_TTL_SECONDS → DEDUP_TTL_SECONDS < t2 - t0 →
    ((is_duplicate k t0 st).1 = false ∧
     lookupTs k (is_duplicate k t0 st).2 = some t0 ∧
     (is_duplicate k t1 (is_duplicate k t0 st).2).1 = true ∧
     lookupTs k (is_duplicate k t1 (is_duplicate k t0 st).2).2 = some t0 ∧
     lookupTs k (_cleanup_processed t2 (is_duplicate k t1 (is_duplicate k t0 st).2).2) = none ∧
     (is_duplicate k t2 (is_duplicate k t1 (is_duplicate k t0 st).2).2).1 = false) := by
  intro st k t0 t1 t2 h0 h1 h2
  have hc0 : lookupTs k (_cleanup_processed t0 st) = none :=
    lookupTs_filter_none st k _ h0
  have e1 : is_duplicate k t0 st = (false, (k, t0) :: _cleanup_processed t0 st) := by
    unfold is_duplicate
    rw [hc0]
  have hcl1 : _cleanup_processed t1 ((k, t0) :: _cleanup_processed t0 st) =
      (k, t0) :: _cleanup_processed t1 (_cleanup_processed t0 st) := by
    unfold _cleanup_processed
    rw [List.filter_cons, if_pos (by simpa using h1)]
  have hc1 : lookupTs k (_cleanup_processed t1 (_cleanup_processed t0 st)) = none :=
    lookupTs_filter_none _ k _ hc0
  have e2 : is_duplicate k t1 ((k, t0) :: _cleanup_processed t0 st) =
      (true, (k, t0) :: _cleanup_processed t1 (_cleanup_processed t0 st)) := by
    unfold is_duplicate
    rw [hcl1]
    have : lookupTs k ((k, t0) :: _cleanup_processed t1 (_cleanup_processed t0 st)) =
        some t0 := by simp [lookupTs]
    rw [this]
  have hcl2 : _cleanup_processed t2 ((k, t0) :: _cleanup_processed t1 (_cleanup_processed t0 st)) =
      _cleanup_processed t2 (_cleanup_processed t1 (_cleanup_processed t0 st)) := by
    unfold _cleanup_processed
    rw [List.filter_cons, if_neg (by simpa using not_le.mpr h2)]
  have hc2 : lookupTs k
      (_cleanup_processed t2 (_cleanup_processed t1 (_cleanup_processed t0 st))) = none :=
    lookupTs_filter_none _ k _ hc1
  have e3 : (is_duplicate k t2
      ((k, t0) :: _cleanup_processed t1 (_cleanup_processed t0 st))).1 = false := by
    unfold is_duplicate
    rw [hcl2, hc2]
  refine ⟨by rw [e1], by rw [e1]; simp [lookupTs], by rw [e1, e2],
    by rw [e1, e2]; simp [lookupTs], by rw [e1, e2, hcl2]; exact hc2, by rw [e1, e2]; exact e3⟩

/-- Witness for `is_duplicate_spec` at the key `"k1"`, times 0, 0 and 1000
(the time-to-live is 900 seconds), starting from the empty store. -/
theorem is_duplicate_spec_w :
    (is_duplicate (str "k1") 0 []).1 = false ∧
    (is_duplicate (str "k1") 0 (is_duplicate (str "k1") 0 []).2).1 = true ∧
    (is_duplicate (str "k1") 1000
      (is_duplicate (str "k1") 0 (is_duplicate (str "k1") 0 []).2).2).1 = false := by
  have h := is_duplicate_spec [] (str "k1") 0 0 1000 rfl (by norm_num [DEDUP_TTL_SECONDS])
    (by norm_num [DEDUP_TTL_SECONDS])
  exact ⟨h.1, h.2.2.1, h.2.2.2.2.2⟩

/-- Helper: a run of retryable responses exhausts the loop into the
rate-limited error, sleeping once per attempt. -/
theorem openai_loop_all_retry : ∀ (resp : Nat → Nat × Str) (jit : Nat → ℚ) (n a : Nat),
    (∀ i, i < n → isRetryable (resp (a + i)).1 = true) →
    openai_loop resp jit n a =
      (Except.error OpenAIErr.rateLimited,
       (attemptList a n).map (fun i => (2 : ℚ) ^ i + jit i)) := by
  intro resp jit n
  induction n with
  | zero => intro a _; rfl
  | succ m ih =>
    intro a h
    have h0 : isRetryable (resp a).1 = true := by simpa using h 0 (Nat.succ_pos m)
    have hrec := ih (a + 1) (fun i hi => by
      have hx := h (i + 1) (by omega)
      rwa [show a + (i + 1) = a + 1 + i by omega] at hx)
    unfold openai_loop
    rw [if_pos h0, hrec]
    rfl

/-- Helper: the first non-retryable response stops the loop immediately with
the status-determined outcome, having slept only for the earlier attempts. -/
theorem openai_loop_stops : ∀ (resp : Nat → Nat × Str) (jit : Nat → ℚ) (k : Nat),
    ∀ (n a : Nat), k < n →
    (∀ i, i < k → isRetryable (resp (a + i)).1 = true) →
    isRetryable (resp (a + k)).1 = false →
    openai_loop resp jit n a =
      (stopResult (resp (a + k)), (attemptList a k).map (fun i => (2 : ℚ) ^ i + jit i)) := by
  intro resp jit k
  induction k with
  | zero =>
    intro n a hkn _ hs
    match n, hkn with
    | m + 1, _ =>
      unfold openai_loop
      rw [if_neg (by simpa using hs)]
      simp [attemptList]
  | succ j ih =>
    intro n a hkn hr hs
    match n, hkn with
    | m + 1, hkn =>
      have h0 : isRetryable (resp a).1 = true := by simpa using hr 0 (by omega)
      have hrec := ih m (a + 1) (by omega)
        (fun i hi => by
          have hx := hr (i + 1) (by omega)
          rwa [show a + (i + 1) = a + 1 + i by omega] at hx)
        (by rwa [show a + (j + 1) = a + 1 + j by omega] at hs)
      unfold openai_loop
      rw [if_pos h0, hrec]
      rw [show a + 1 + j = a + (j + 1) by omega]
      rfl

/-- Helper: every recorded sleep of the loop is the backoff of one attempt. -/
theorem openai_loop_waits : ∀ (resp : Nat → Nat × Str) (jit : Nat → ℚ) (n a : Nat),
    ∀ w ∈ (openai_loop resp jit n a).2,
    ∃ i, a ≤ i ∧ i < a + n ∧ w = (2 : ℚ) ^ i + jit i := by
  intro resp jit n
  induction n with
  | zero => intro a w hw; exact absurd hw (by simp [openai_loop])
  | succ m ih =>
    intro a w hw
    unfold openai_loop at hw
    by_cases hb : isRetryable (resp a).1
    · rw [if_pos hb] at hw
      simp only [List.mem_cons] at hw
      rcases hw with hw | hw
      · exact ⟨a, le_refl a, by omega, hw⟩
      · obtain ⟨i, h1, h2, h3⟩ := ih (a + 1) w hw
        exact ⟨i, by omega, by omega, h3⟩
    · rw [if_neg hb] at hw
      exact absurd hw (by simp)

/-- Claim C8: with the API key configured and the jitter within
`random.uniform(0, 0.8)`'s range: (1) five retryable responses (429 or
5xx) exhaust the budget into the rate-limited error after five capped
backoff sleeps; (2) the first non-retryable response stops the loop
immediately — at least 400 raises that HTTP error, otherwise the content
is returned — so non-retryable statuses are never retried; (3) every sleep
is bounded by `2^4 + 0.8 = 84/5` seconds. -/
theorem call_openai_spec : ∀ (key : Str) (resp : Nat → Nat × Str) (jit : Nat → ℚ),
    key ≠ [] → (∀ i, 0 ≤ jit i ∧ jit i ≤ 4 / 5) →
    (((∀ i, i < 5 → isRetryable (resp i).1 = true) →
        call_openai key resp jit =
          (Except.error OpenAIErr.rateLimited,
           (attemptList 0 5).map (fun i => (2 : ℚ) ^ i + jit i))) ∧
     (∀ k, k < 5 → (∀ i, i < k → isRetryable (resp i).1 = true) →
        isRetryable (resp k).1 = false →
        call_openai key resp jit =
          (stopResult (resp k), (attemptList 0 k).map (fun i => (2 : ℚ) ^ i + jit i))) ∧
     (∀ w ∈ (call_openai key resp jit).2, w ≤ 84 / 5)) := by
  intro key resp jit hkey hj
  have hcall : call_openai key resp jit = openai_loop resp jit 5 0 := by
    unfold call_openai
    rw [if_neg hkey]
  refine ⟨?_, ?_, ?_⟩
  · intro hall
    rw [hcall]
    exact openai_loop_all_retry resp jit 5 0 (fun i hi => by
      rw [Nat.zero_add]; exact hall i hi)
  · intro k hk hbefore hstop
    rw [hcall]
    have h := openai_loop_stops resp jit k 5 0 hk
      (fun i hi => by rw [Nat.zero_add]; exact hbefore i hi)
      (by rw [Nat.zero_add]; exact hstop)
    rw [h, Nat.zero_add]
  · intro w hw
    rw [hcall] at hw
    obtain ⟨i, _, hin, hwe⟩ := openai_loop_waits resp jit 5 0 w hw
    have hp : (2 : ℚ) ^ i ≤ 2 ^ 4 := pow_le_pow_right₀ (by norm_num) (by omega)
    have h16 : (2 : ℚ) ^ 4 = 16 := by norm_num
    have hji := (hj i).2
    rw [hwe]
    linarith

/-- Witness for `call_openai_spec`: a first-attempt success returns the
content with no sleeps. -/
theorem call_openai_spec_w :
    (str "k" ≠ ([] : Str)) ∧
    call_openai (str "k") resp200 jitZero = (Except.ok (str "ok"), []) := by
  have hj : ∀ i, (0 : ℚ) ≤ jitZero i ∧ jitZero i ≤ 4 / 5 := fun _ => ⟨le_refl 0, by norm_num [jitZero]⟩
  have h := (call_openai_spec (str "k") resp200 jitZero (by decide) hj).2.1 0 (by omega)
    (fun i hi => absurd hi (by omega)) (by decide)
  exact ⟨by decide, by rw [h]; rfl⟩

/-- Claim C9: on an empty row sequence the template summarizer returns
exactly the fixed no-data message (a non-empty string), and for every
input whatsoever the reply has at most 4500 characters. -/
theorem c9_summarizer :
    (∀ question sql : Str, summarize_locally question sql [] =
        str "查無資料：可能是篩選條件太嚴格或近30天沒有資料。") ∧
    str "查無資料：可能是篩選條件太嚴格或近30天沒有資料。" ≠ ([] : Str) ∧
    (∀ (question sql : Str) (rows : List Row),
        (summarize_locally question sql rows).length ≤ 4500) := by
  refine ⟨fun _ _ => rfl, by decide, ?_⟩
  intro q s rows
  cases rows with
  | nil =>
    have h : summarize_locally q s [] =
        str "查無資料：可能是篩選條件太嚴格或近30天沒有資料。" := rfl
    rw [h]
    decide
  | cons r rest =>
    have h : summarize_locally q s (r :: rest) =
        (List.intercalate (str "\n")
          (headLine (((r :: rest).take 10).headD []) ::
            str "前10名如下：" :: enumLines 1 ((r :: rest).take 10))).take 4500 := by
      unfold summarize_locally
      rw [if_neg (by simp)]
    rw [h]
    exact List.length_take_le 4500 _

/-- Helper: adding an unrelated column does not change a lookup. -/
theorem rowGet_cons_ne : ∀ (k0 : Str) (v0 : Val) (r : Row) (k : Str), k0 ≠ k →
    rowGet ((k0, v0) :: r) k = rowGet r k := by
  intro k0 v0 r k h
  simp [rowGet, h]

/-- Helper: a zero `ng_rate` column is invisible to the text-field chains. -/
theorem chain2_skip : ∀ (r : Row) (k1 k2 : Str), str "ng_rate" ≠ k1 → str "ng_rate" ≠ k2 →
    chain2 ((str "ng_rate", Val.vNum 0) :: r) k1 k2 = chain2 r k1 k2 := by
  intro r k1 k2 h1 h2
  unfold chain2
  rw [rowGet_cons_ne _ _ _ _ h1, rowGet_cons_ne _ _ _ _ h2]

/-- Helper: a zero `ng_rate` column is skipped by the rate chain exactly as
if the column were absent. -/
theorem ngChain_skip : ∀ r : Row, rowGet r (str "ng_rate") = none →
    ngChain ((str "ng_rate", Val.vNum 0) :: r) = ngChain r := by
  intro r h
  unfold ngChain
  rw [rowGet_cons_ne _ _ _ _ (by decide : str "ng_rate" ≠ str "NG_Rate"),
    rowGet_cons_ne _ _ _ _ (by decide : str "ng_rate" ≠ str "ngRate")]
  have hz : rowGet ((str "ng_rate", Val.vNum 0) :: r) (str "ng_rate") = some (Val.vNum 0) := by
    simp [rowGet]
  rw [hz, h]
  simp [pyOrV, truthy]

/-- Helper: the heading is unchanged by a zero `ng_rate` column. -/
theorem headLine_skip : ∀ r : Row, rowGet r (str "ng_rate") = none →
    headLine ((str "ng_rate", Val.vNum 0) :: r) = headLine r := by
  intro r h
  unfold headLine
  rw [chain2_skip r (str "plant") (str "Plant") (by decide) (by decide),
    chain2_skip r (str "part_no") (str "Product_Number") (by decide) (by decide),
    chain2_skip r (str "part_name") (str "Product_Name") (by decide) (by decide),
    ngChain_skip r h]

/-- Helper: a row line is unchanged by a zero `ng_rate` column. -/
theorem rowLine_skip : ∀ (i : Nat) (r : Row), rowGet r (str "ng_rate") = none →
    rowLine i ((str "ng_rate", Val.vNum 0) :: r) = rowLine i r := by
  intro i r h
  unfold rowLine
  rw [chain2_skip r (str "plant") (str "Plant") (by decide) (by decide),
    chain2_skip r (str "part_no") (str "Product_Number") (by decide) (by decide),
    ngChain_skip r h]

/-- Helper: the floor of zero. -/
theorem ratFloor_zero : ratFloor 0 = 0 := rfl

/-- Helper: rounding zero. -/
theorem roundHalfEven_zero : roundHalfEven 0 = 0 := by
  unfold roundHalfEven
  rw [ratFloor_zero]
  norm_num

/-- Helper: the two-decimal rendering of a zero rate. -/
theorem formatF2_zero : formatF2 ((0 : ℚ) * 100) = str "0.00" := by
  unfold formatF2
  rw [show ((0 : ℚ) * 100) * 100 = 0 by norm_num, roundHalfEven_zero]
  decide

/-- Helper: the heading for the single row whose `ngRate` column is 0. -/
theorem headLine_ngRate0 :
    headLine [(str "ngRate", Val.vNum 0)] = str "📌 近30天 NG率最高： / （），NG率約 0.00%" := by
  have hg : get_float (ngChain [(str "ngRate", Val.vNum 0)]) = some 0 := by decide
  unfold headLine
  simp only [hg]
  rw [formatF2_zero]
  decide

/-- Helper: the enumerated line for the single row whose `ngRate` column is 0. -/
theorem rowLine_ngRate0 :
    rowLine 1 [(str "ngRate", Val.vNum 0)] = str "1.  /   NG率 0.00%" := by
  have hg : get_float (ngChain [(str "ngRate", Val.vNum 0)]) = some 0 := by decide
  unfold rowLine
  simp only [hg]
  rw [formatF2_zero]
  decide

/-- Helper: the full summary of the single row whose `ngRate` column is 0
carries the percentage `0.00%`. -/
theorem summarize_ngRate0 :
    summarize_locally [] [] [[(str "ngRate", Val.vNum 0)]] =
      str "📌 近30天 NG率最高： / （），NG率約 0.00%\n前10名如下：\n1.  /   NG率 0.00%" := by
  unfold summarize_locally
  rw [if_neg (by simp)]
  simp only [List.take_succ_cons, List.take_nil, List.headD_cons, enumLines]
  rw [headLine_ngRate0, rowLine_ngRate0]
  decide

/-- Claim C10 (amended): a 0 in the `ng_rate` column is treated identically
to an absent column — the `or`-chain skips falsy non-final candidates —
so the summaries agree; but a 0 in the *final* candidate `ngRate` is
returned by Python's `or` as-is, converts to `0.0`, and the output line
shows the percentage `0.00%` instead of omitting it. -/
theorem c10_amended :
    (∀ (question sql : Str) (r : Row) (rest : List Row),
        rowGet r (str "ng_rate") = none →
        summarize_locally question sql (((str "ng_rate", Val.vNum 0) :: r) :: rest) =
          summarize_locally question sql (r :: rest)) ∧
    summarize_locally [] [] [[(str "ngRate", Val.vNum 0)]] =
      str "📌 近30天 NG率最高： / （），NG率約 0.00%\n前10名如下：\n1.  /   NG率 0.00%" := by
  constructor
  · intro q s r rest h
    unfold summarize_locally
    rw [if_neg (by simp), if_neg (by simp)]
    simp only [List.take_succ_cons, List.headD_cons, enumLines]
    rw [headLine_skip r h, rowLine_skip 1 r h]
  · exact summarize_ngRate0

/-- Witness for `c10_amended` at the one-column row `ng_rate = 0` against the
empty row. -/
theorem c10_amended_w :
    rowGet ([] : Row) (str "ng_rate") = none ∧
    summarize_locally [] [] [[(str "ng_rate", Val.vNum 0)]] =
      summarize_locally [] [] [([] : Row)] :=
  ⟨rfl, c10_amended.1 [] [] [] [] rfl⟩

/-- Counterexample to claim C10 as stated: the row whose `ngRate` column
holds exactly 0 is *not* summarized like a row without the column — its
output line carries the percentage `0.00%`. -/
theorem c10_counter :
    summarize_locally [] [] [[(str "ngRate", Val.vNum 0)]] ≠
      summarize_locally [] [] [([] : Row)] ∧
    containsSub (summarize_locally [] [] [[(str "ngRate", Val.vNum 0)]]) (str "%") = true := by
  rw [summarize_ngRate0]
  refine ⟨by decide, by decide⟩
